import Mathlib

/-!
Shallow embedding of `jupyterhub/metrics.py`: the Prometheus metric
definitions created at module load, the status enumerations and their eager
pre-registration loops, the request instrumentation hook
`prometheus_log_method`, and the `PeriodicMetricsCollector` with its
`update` and `start` methods.

Timestamps are modelled as integers (seconds); `timedelta(days=1)` is
86400 seconds and `timedelta(days=30)` is 2592000 seconds. Durations and
the jitter fraction are rationals. The external mutable world touched by
the module (the four gauges) is an explicit `MetricsState`, and side
effects (database queries, gauge writes, log lines, timer arming) are
returned as an explicit `Effect` trace.
-/

namespace JupyterhubMetrics

/-- A histogram bucket boundary: a finite rational, or positive infinity
(`float("inf")` in the source). -/
inductive BucketBound
  | val (q : ℚ)
  | inf
  deriving DecidableEq, Repr

/-- Embeds `prometheus_client.Histogram(name, documentation, labelnames,
buckets=...)` as registered by the module: the name, help text, label
names and (when the source passes them) custom bucket boundaries.
`buckets = none` means the library default buckets are used. -/
structure Histogram where
  name : String
  help : String
  labelnames : List String := []
  buckets : Option (List BucketBound) := none
  deriving DecidableEq, Repr

/-- Embeds `prometheus_client.Gauge(name, documentation)` as registered by
the module. -/
structure Gauge where
  name : String
  help : String
  deriving DecidableEq, Repr

def REQUEST_DURATION_SECONDS : Histogram :=
  { name := "jupyterhub_request_duration_seconds"
    help := "request duration for all HTTP requests"
    labelnames := ["method", "handler", "code"] }

def SERVER_SPAWN_DURATION_SECONDS : Histogram :=
  { name := "jupyterhub_server_spawn_duration_seconds"
    help := "time taken for server spawning operation"
    labelnames := ["status"]
    buckets := some [.val 0.5, .val 1, .val 2.5, .val 5, .val 10, .val 15,
                     .val 30, .val 60, .val 120, .inf] }

def RUNNING_SERVERS : Gauge :=
  { name := "jupyterhub_running_servers"
    help := "the number of user servers currently running" }

def TOTAL_USERS : Gauge :=
  { name := "jupyterhub_total_users", help := "total number of users" }

def DAILY_ACTIVE_USERS : Gauge :=
  { name := "jupyterhub_daily_active_users"
    help := "number of users who were active in the last 24h" }

def MONTHLY_ACTIVE_USERS : Gauge :=
  { name := "jupyterhub_monthly_active_users"
    help := "number of users who were active in the last 30d" }

def CHECK_ROUTES_DURATION_SECONDS : Histogram :=
  { name := "jupyterhub_check_routes_duration_seconds"
    help := "Time taken to validate all routes in proxy" }

def HUB_STARTUP_DURATION_SECONDS : Histogram :=
  { name := "jupyterhub_hub_startup_duration_seconds"
    help := "Time taken for Hub to start" }

def INIT_SPAWNERS_DURATION_SECONDS : Histogram :=
  { name := "jupyterhub_init_spawners_duration_seconds"
    help := "Time taken for spawners to initialize" }

def PROXY_POLL_DURATION_SECONDS : Histogram :=
  { name := "jupyterhub_proxy_poll_duration_seconds"
    help := "duration for polling all routes from proxy" }

def PROXY_ADD_DURATION_SECONDS : Histogram :=
  { name := "jupyterhub_proxy_add_duration_seconds"
    help := "duration for adding user routes to proxy"
    labelnames := ["status"] }

def SERVER_POLL_DURATION_SECONDS : Histogram :=
  { name := "jupyterhub_server_poll_duration_seconds"
    help := "time taken to poll if server is running"
    labelnames := ["status"] }

def SERVER_STOP_DURATION_SECONDS : Histogram :=
  { name := "jupyterhub_server_stop_seconds"
    help := "time taken for server stopping operation"
    labelnames := ["status"] }

def PROXY_DELETE_DURATION_SECONDS : Histogram :=
  { name := "jupyterhub_proxy_delete_duration_seconds"
    help := "duration for deleting user routes from proxy"
    labelnames := ["status"] }

/-- Every metric name registered at module level, in source order. -/
def allMetricNames : List String :=
  [ REQUEST_DURATION_SECONDS.name
  , SERVER_SPAWN_DURATION_SECONDS.name
  , RUNNING_SERVERS.name
  , TOTAL_USERS.name
  , DAILY_ACTIVE_USERS.name
  , MONTHLY_ACTIVE_USERS.name
  , CHECK_ROUTES_DURATION_SECONDS.name
  , HUB_STARTUP_DURATION_SECONDS.name
  , INIT_SPAWNERS_DURATION_SECONDS.name
  , PROXY_POLL_DURATION_SECONDS.name
  , PROXY_ADD_DURATION_SECONDS.name
  , SERVER_POLL_DURATION_SECONDS.name
  , SERVER_STOP_DURATION_SECONDS.name
  , PROXY_DELETE_DURATION_SECONDS.name ]

/-- The nine histograms other than `SERVER_STOP_DURATION_SECONDS` that track
a duration, by name. -/
def otherDurationHistogramNames : List String :=
  [ REQUEST_DURATION_SECONDS.name
  , SERVER_SPAWN_DURATION_SECONDS.name
  , CHECK_ROUTES_DURATION_SECONDS.name
  , HUB_STARTUP_DURATION_SECONDS.name
  , INIT_SPAWNERS_DURATION_SECONDS.name
  , PROXY_POLL_DURATION_SECONDS.name
  , PROXY_ADD_DURATION_SECONDS.name
  , SERVER_POLL_DURATION_SECONDS.name
  , PROXY_DELETE_DURATION_SECONDS.name ]

/-- `class ServerSpawnStatus(Enum)`: possible values for the `status` label
of `SERVER_SPAWN_DURATION_SECONDS`. -/
inductive ServerSpawnStatus
  | success
  | failure
  | already_pending
  | throttled
  | too_many_users
  deriving DecidableEq, Repr

/-- The string value of each `ServerSpawnStatus` member (its `__str__`). -/
def ServerSpawnStatus.value : ServerSpawnStatus → String
  | .success => "success"
  | .failure => "failure"
  | .already_pending => "already-pending"
  | .throttled => "throttled"
  | .too_many_users => "too-many-users"

/-- Members of `ServerSpawnStatus` in definition order, as Python Enum
iteration yields them. -/
def ServerSpawnStatus.all : List ServerSpawnStatus :=
  [.success, .failure, .already_pending, .throttled, .too_many_users]

/-- `class ProxyAddStatus(Enum)`. -/
inductive ProxyAddStatus
  | success
  | failure
  deriving DecidableEq, Repr

def ProxyAddStatus.value : ProxyAddStatus → String
  | .success => "success"
  | .failure => "failure"

def ProxyAddStatus.all : List ProxyAddStatus := [.success, .failure]

/-- `class ServerPollStatus(Enum)`. -/
inductive ServerPollStatus
  | running
  | stopped
  deriving DecidableEq, Repr

def ServerPollStatus.value : ServerPollStatus → String
  | .running => "running"
  | .stopped => "stopped"

def ServerPollStatus.all : List ServerPollStatus := [.running, .stopped]

/-- `str(s)` for a `ServerPollStatus` member. Unlike the other four status
enums, `ServerPollStatus` defines no `__str__`, so Python falls back to
the default `Enum.__str__`, which is `ClassName.membername`. -/
def ServerPollStatus.str : ServerPollStatus → String
  | .running => "ServerPollStatus.running"
  | .stopped => "ServerPollStatus.stopped"

/-- `ServerPollStatus.from_status(status)`: `None` maps to `running`, any
other value maps to `stopped`. The external nullable process status is an
`Option α`. -/
def ServerPollStatus.from_status {α : Type} (status : Option α) :
    ServerPollStatus :=
  match status with
  | none => .running
  | some _ => .stopped

/-- `class ServerStopStatus(Enum)`. -/
inductive ServerStopStatus
  | success
  | failure
  deriving DecidableEq, Repr

def ServerStopStatus.value : ServerStopStatus → String
  | .success => "success"
  | .failure => "failure"

def ServerStopStatus.all : List ServerStopStatus := [.success, .failure]

/-- `class ProxyDeleteStatus(Enum)`. -/
inductive ProxyDeleteStatus
  | success
  | failure
  deriving DecidableEq, Repr

def ProxyDeleteStatus.value : ProxyDeleteStatus → String
  | .success => "success"
  | .failure => "failure"

def ProxyDeleteStatus.all : List ProxyDeleteStatus := [.success, .failure]

/-- The series eagerly created at module load by the five
`for s in <Enum>: METRIC.labels(status=s)` loops, as pairs of metric name
and status label value, in source order. `labels(status=s)` stringifies
the enum member with `str()`: `ServerSpawnStatus`, `ProxyAddStatus`,
`ServerStopStatus` and `ProxyDeleteStatus` define `__str__` returning
`self.value`, so their label values are the plain value strings, but
`ServerPollStatus` defines no `__str__`, so its label values are the
default enum strings `ServerPollStatus.running` and
`ServerPollStatus.stopped`. -/
def preRegisteredSeries : List (String × String) :=
  (ServerSpawnStatus.all.map
    fun s => (SERVER_SPAWN_DURATION_SECONDS.name, s.value)) ++
  (ProxyAddStatus.all.map
    fun s => (PROXY_ADD_DURATION_SECONDS.name, s.value)) ++
  (ServerPollStatus.all.map
    fun s => (SERVER_POLL_DURATION_SECONDS.name, s.str)) ++
  (ServerStopStatus.all.map
    fun s => (SERVER_STOP_DURATION_SECONDS.name, s.value)) ++
  (ProxyDeleteStatus.all.map
    fun s => (PROXY_DELETE_DURATION_SECONDS.name, s.value))

/-- Querying the registry for the observation count of the series
`metric{status=status}` immediately after module load: `.labels(...)`
creates a child with zero observations, so a pre-registered series reports
`some 0`; a series never touched is absent (`none`). -/
def seriesCount (metric status : String) : Option ℕ :=
  if (metric, status) ∈ preRegisteredSeries then some 0 else none

/-- The parts of a completed Tornado request context that
`prometheus_log_method` reads: `handler.request.method`,
`handler.__class__.__module__`, `type(handler).__name__`,
`handler.get_status()` and `handler.request.request_time()`. The elapsed
duration is nullable to model a request context whose duration extraction
fails (raises) in the source; the source has no try/except around it. -/
structure RequestContext where
  method : String
  module : String
  className : String
  status : ℕ
  request_time : Option ℚ
  deriving DecidableEq, Repr

/-- One histogram observation recorded against
`REQUEST_DURATION_SECONDS`: the three label values and the observed
duration in seconds. -/
structure Observation where
  method : String
  handler : String
  code : ℕ
  value : ℚ
  deriving DecidableEq, Repr

/-- `prometheus_log_method(handler)`: records one observation into
`REQUEST_DURATION_SECONDS` labelled with the method, the fully qualified
handler type `module.ClassName`, and the status code, with value
`handler.request.request_time()`. The source wraps nothing in try/except,
so a failing duration extraction propagates to the caller, embedded here
as `Except.error`. -/
def prometheus_log_method (handler : RequestContext) :
    Except String Observation :=
  match handler.request_time with
  | none => .error "AttributeError: request_time"
  | some t =>
      .ok { method := handler.method
            handler := handler.module ++ "." ++ handler.className
            code := handler.status
            value := t }

/-- One row of the `users` table as seen by the collector query:
`orm.User.last_activity` is a nullable timestamp. A SQL comparison against
NULL is not true, so a user with `last_activity = none` never matches
`last_activity >= cutoff`. -/
structure User where
  last_activity : Option ℤ
  deriving DecidableEq, Repr

/-- The mutable gauge state of the module that `update` can touch: the
four module-level gauges, by current value. -/
structure MetricsState where
  running_servers : ℕ := 0
  total_users : ℕ := 0
  daily_active_users : ℕ := 0
  monthly_active_users : ℕ := 0
  deriving DecidableEq, Repr

/-- An externally visible side effect of the collector: a read-only
persistence query counting users active since a cutoff, a gauge write, a
log line, or arming the repeating timer (`PeriodicCallback(...).start()`
with its callback time in milliseconds and its jitter fraction). -/
inductive Effect
  | query (cutoff : ℤ)
  | setGauge (gauge : String) (value : ℕ)
  | logInfo (msg : String)
  | armTimer (callback_time_ms : ℕ) (jitter : ℚ)
  deriving DecidableEq, Repr

/-- Whether an effect is a gauge write. -/
def Effect.isSetGauge : Effect → Bool
  | .setGauge _ _ => true
  | _ => false

/-- `self.db.query(orm.User).filter(orm.User.last_activity >= cutoff)
.count()`: the number of users whose (non-null) last activity timestamp is
at least the cutoff. -/
def countActiveSince (db : List User) (cutoff : ℤ) : ℕ :=
  db.countP fun u =>
    match u.last_activity with
    | some t => decide (cutoff ≤ t)
    | none => false

/-- `PeriodicMetricsCollector`: traitlets configuration plus the database
handle, here the list of user rows the queries run over. Defaults are the
trait defaults: enabled, one hour. -/
structure PeriodicMetricsCollector where
  active_users_metrics_enabled : Bool := true
  active_users_metrics_update_period : ℕ := 60 * 60
  db : List User
  deriving DecidableEq, Repr

/-- `PeriodicMetricsCollector.update()`. The source calls
`datetime.now()` once for each cutoff; the two observed clock values are
the explicit arguments `now₁` (daily) and `now₂` (monthly), so a fixed
clock is the instantiation `now₁ = now₂`. Returns the new gauge state and
the trace of effects in source order: two queries, two gauge writes, two
log lines. -/
def PeriodicMetricsCollector.update (c : PeriodicMetricsCollector)
    (now₁ now₂ : ℤ) (st : MetricsState) : MetricsState × List Effect :=
  let daily_cutoff := now₁ - 86400
  let monthly_cutoff := now₂ - 30 * 86400
  let daily_active_users := countActiveSince c.db daily_cutoff
  let monthly_active_users := countActiveSince c.db monthly_cutoff
  ({ st with daily_active_users := daily_active_users
             monthly_active_users := monthly_active_users },
   [ .query daily_cutoff
   , .query monthly_cutoff
   , .setGauge DAILY_ACTIVE_USERS.name daily_active_users
   , .setGauge MONTHLY_ACTIVE_USERS.name monthly_active_users
   , .logInfo ("Found " ++ toString daily_active_users ++
       " active users in the last 24h")
   , .logInfo ("Found " ++ toString monthly_active_users ++
       " active users in the last 30d") ])

/-- `PeriodicMetricsCollector.start()`. When
`active_users_metrics_enabled` is false this does nothing. Otherwise the
source first constructs and starts a
`PeriodicCallback(self.update, period * 1000, jitter=0.01)` and only then
runs `self.update()` once synchronously; the effect trace records the
timer arming followed by the effects of that one update. `now` is the
clock value the synchronous update observes. -/
def PeriodicMetricsCollector.start (c : PeriodicMetricsCollector)
    (now : ℤ) (st : MetricsState) : MetricsState × List Effect :=
  if c.active_users_metrics_enabled then
    let upd := c.update now now st
    (upd.1,
     .armTimer (c.active_users_metrics_update_period * 1000) (1 / 100) ::
       upd.2)
  else
    (st, [])

/-- C1: for every fixed clock value `now` and every persistence state,
`update()` sets the daily-active-users gauge to the count of users whose
last-activity timestamp is at least `now - 24h` and the monthly gauge to
the count of users active since `now - 30d`, and mutates nothing else:
the other two gauges keep their values and the only gauge writes in the
effect trace are those two. -/
theorem spec_C1 (c : PeriodicMetricsCollector) (now : ℤ)
    (st : MetricsState) :
    ((c.update now now st).1.daily_active_users =
      c.db.countP fun u =>
        match u.last_activity with
        | some t => decide (now - 86400 ≤ t)
        | none => false) ∧
    ((c.update now now st).1.monthly_active_users =
      c.db.countP fun u =>
        match u.last_activity with
        | some t => decide (now - 30 * 86400 ≤ t)
        | none => false) ∧
    (c.update now now st).1.running_servers = st.running_servers ∧
    (c.update now now st).1.total_users = st.total_users ∧
    (c.update now now st).2.filter Effect.isSetGauge =
      [ Effect.setGauge DAILY_ACTIVE_USERS.name
          (c.update now now st).1.daily_active_users
      , Effect.setGauge MONTHLY_ACTIVE_USERS.name
          (c.update now now st).1.monthly_active_users ] :=
  ⟨rfl, rfl, rfl, rfl, rfl⟩

/-- C2: the claim fails for the server-poll metric. `ServerPollStatus`
defines no `__str__` (its four sibling enums all do), so the
pre-registration loop registers the poll series under the default enum
strings `ServerPollStatus.running` and `ServerPollStatus.stopped`;
querying the registry for the enum values `running` and `stopped`
immediately after module load finds absence, not a zero count. The other
four status enums are pre-registered with zero observations under their
plain enum values as the claim states. -/
theorem spec_C2 :
    seriesCount SERVER_POLL_DURATION_SECONDS.name "running" = none ∧
    seriesCount SERVER_POLL_DURATION_SECONDS.name "stopped" = none ∧
    (∀ s : ServerPollStatus,
      seriesCount SERVER_POLL_DURATION_SECONDS.name s.str = some 0) ∧
    (∀ s : ServerSpawnStatus,
      seriesCount SERVER_SPAWN_DURATION_SECONDS.name s.value = some 0) ∧
    (∀ s : ProxyAddStatus,
      seriesCount PROXY_ADD_DURATION_SECONDS.name s.value = some 0) ∧
    (∀ s : ServerStopStatus,
      seriesCount SERVER_STOP_DURATION_SECONDS.name s.value = some 0) ∧
    (∀ s : ProxyDeleteStatus,
      seriesCount PROXY_DELETE_DURATION_SECONDS.name s.value = some 0) :=
  ⟨by decide,
   by decide,
   fun s => by cases s <;> decide,
   fun s => by cases s <;> decide,
   fun s => by cases s <;> decide,
   fun s => by cases s <;> decide,
   fun s => by cases s <;> decide⟩

/-- C3 counterexample: the claim says an enabled `start()` performs its
one synchronous `update()` first and arms the timer only afterwards. On a
concrete enabled collector the effect trace of `start()` begins with the
timer arming and the update effects follow, not the other way round. -/
theorem spec_C3_counterexample :
    (PeriodicMetricsCollector.start ⟨true, 3600, []⟩ 0 {}).2 =
      Effect.armTimer 3600000 (1 / 100) ::
        (PeriodicMetricsCollector.update ⟨true, 3600, []⟩ 0 0 {}).2 ∧
    (PeriodicMetricsCollector.start ⟨true, 3600, []⟩ 0 {}).2 ≠
      (PeriodicMetricsCollector.update ⟨true, 3600, []⟩ 0 0 {}).2 ++
        [Effect.armTimer 3600000 (1 / 100)] :=
  ⟨rfl, by decide⟩

/-- C3 amended: when the collector is enabled, `start()` first arms the
repeating timer with callback time `period * 1000` milliseconds and
jitter fraction `0.01`, and then performs exactly one synchronous
`update()`, all before returning. -/
theorem spec_C3_amended (c : PeriodicMetricsCollector) (now : ℤ)
    (st : MetricsState) (h : c.active_users_metrics_enabled = true) :
    c.start now st =
      ((c.update now now st).1,
        Effect.armTimer (c.active_users_metrics_update_period * 1000)
            (1 / 100) ::
          (c.update now now st).2) := by
  simp only [PeriodicMetricsCollector.start, h, if_true]

/-- C3 witness: the amended statement evaluated on a concrete enabled
collector. -/
theorem spec_C3_witness :
    PeriodicMetricsCollector.start ⟨true, 3600, []⟩ 5 {} =
      ((PeriodicMetricsCollector.update ⟨true, 3600, []⟩ 5 5 {}).1,
        Effect.armTimer 3600000 (1 / 100) ::
          (PeriodicMetricsCollector.update ⟨true, 3600, []⟩ 5 5 {}).2) :=
  spec_C3_amended ⟨true, 3600, []⟩ 5 {} rfl

/-- C4 counterexample: the claim says `prometheus_log_method` never
raises. On a request context whose duration extraction fails the call
propagates the error to its caller; the source has no try/except. -/
theorem spec_C4_counterexample :
    prometheus_log_method
        { method := "GET", module := "X", className := "Y", status := 200,
          request_time := none } =
      Except.error "AttributeError: request_time" := rfl

/-- C4 amended: `prometheus_log_method` records an observation exactly
when the duration extraction succeeds; a malformed or missing duration
makes the extraction error propagate to the caller (no observation, no
swallowing). -/
theorem spec_C4_amended (h : RequestContext) :
    (prometheus_log_method h).toOption.isSome = h.request_time.isSome := by
  cases hr : h.request_time <;>
    simp [prometheus_log_method, hr, Except.toOption]

/-- C5: `ServerPollStatus.from_status` is total on nullable process
status values: `none` maps to `running` and every non-null value maps to
`stopped`. -/
theorem spec_C5 (α : Type) :
    ServerPollStatus.from_status (none : Option α) =
        ServerPollStatus.running ∧
    ∀ v : α, ServerPollStatus.from_status (some v) =
        ServerPollStatus.stopped :=
  ⟨rfl, fun _ => rfl⟩

/-- C6: for every completed request context (one whose elapsed duration
is available), `prometheus_log_method` records exactly one observation
into the request-duration histogram whose value is the elapsed duration
in seconds and whose labels are the method, the handler identifier
derived from the fully qualified handler type `module.ClassName`, and the
status code. -/
theorem spec_C6 (h : RequestContext) (t : ℚ)
    (ht : h.request_time = some t) :
    prometheus_log_method h =
      Except.ok
        { method := h.method
          handler := h.module ++ "." ++ h.className
          code := h.status
          value := t } := by
  simp [prometheus_log_method, ht]

/-- C6 witness: a concrete completed request context with method GET,
handler type `X.Y`, code 200 and duration 0.25 seconds yields exactly
that observation. -/
theorem spec_C6_witness :
    prometheus_log_method
        { method := "GET", module := "X", className := "Y", status := 200,
          request_time := some (1 / 4) } =
      Except.ok
        { method := "GET", handler := "X.Y", code := 200,
          value := 1 / 4 } :=
  spec_C6
    { method := "GET", module := "X", className := "Y", status := 200,
      request_time := some (1 / 4) } (1 / 4) rfl

/-- C7: when the collector is disabled, `start()` is a no-op: the gauge
state is unchanged and the effect trace is empty, so no persistence query
runs and no timer is armed. -/
theorem spec_C7 (c : PeriodicMetricsCollector) (now : ℤ)
    (st : MetricsState) (h : c.active_users_metrics_enabled = false) :
    c.start now st = (st, []) := by
  simp only [PeriodicMetricsCollector.start, h, if_false, Bool.false_eq_true]

/-- C7 witness: a concrete disabled collector. -/
theorem spec_C7_witness :
    PeriodicMetricsCollector.start ⟨false, 3600, []⟩ 0 {} = ({}, []) :=
  spec_C7 ⟨false, 3600, []⟩ 0 {} rfl

/-- C8: `update()` is idempotent on the gauge state: with a fixed clock
and an unchanged persisted data set, running it twice in succession
leaves the gauges exactly as one run does. -/
theorem spec_C8 (c : PeriodicMetricsCollector) (now : ℤ)
    (st : MetricsState) :
    (c.update now now (c.update now now st).1).1 =
      (c.update now now st).1 := rfl

/-- C9: the server-spawn duration histogram is registered under exactly
the name `jupyterhub_server_spawn_duration_seconds`, with the single
label `status`, and exactly the bucket boundaries
0.5, 1, 2.5, 5, 10, 15, 30, 60, 120, +inf in that order. -/
theorem spec_C9 :
    SERVER_SPAWN_DURATION_SECONDS.name =
        "jupyterhub_server_spawn_duration_seconds" ∧
    SERVER_SPAWN_DURATION_SECONDS.labelnames = ["status"] ∧
    SERVER_SPAWN_DURATION_SECONDS.buckets =
      some [.val 0.5, .val 1, .val 2.5, .val 5, .val 10, .val 15,
            .val 30, .val 60, .val 120, .inf] :=
  ⟨rfl, rfl, rfl⟩

/-- C10: the server-stop duration histogram is registered under
`jupyterhub_server_stop_seconds`: its name lacks the `_duration_seconds`
component every other duration histogram of the module ends with, and no
metric named `jupyterhub_server_stop_duration_seconds` is registered at
all, so a scrape for that series finds none. -/
theorem spec_C10 :
    SERVER_STOP_DURATION_SECONDS.name = "jupyterhub_server_stop_seconds" ∧
    "jupyterhub_server_stop_duration_seconds" ∉ allMetricNames ∧
    otherDurationHistogramNames =
      ([ "jupyterhub_request", "jupyterhub_server_spawn"
       , "jupyterhub_check_routes", "jupyterhub_hub_startup"
       , "jupyterhub_init_spawners", "jupyterhub_proxy_poll"
       , "jupyterhub_proxy_add", "jupyterhub_server_poll"
       , "jupyterhub_proxy_delete" ].map
        fun p => p ++ "_duration_seconds") ∧
    SERVER_STOP_DURATION_SECONDS.name =
      "jupyterhub_server_stop" ++ "_seconds" ∧
    SERVER_STOP_DURATION_SECONDS.name ≠
      "jupyterhub_server_stop" ++ "_duration_seconds" := by
  refine ⟨rfl, ?_, ?_, ?_, ?_⟩ <;> decide

end JupyterhubMetrics
